import Mathlib

/-!
Verification development for the `hola` repository: a typed preference
store (`src/cfprefs_wrapper.c`, a thin wrapper over the host OS's
CFPreferences key-value service) and a dynamic-value bridge
(`src/mruby_helpers.c`, thin wrappers over the embedded mruby runtime's
tagged-value macros).

The C sources are shallowly embedded here.  External service calls
(`CFPreferencesSetAppValue`, `CFPreferencesAppSynchronize`,
`CFNumberCreate`, `CFNumberGetValue`, `CFStringCreateWithCString`,
`CFStringGetCString`) are modelled as explicit operations on an explicit
store state; fallible external outcomes (a durability flush failing, an
allocation failing) are inputs to the embedded functions, chosen by the
environment.
-/

/-!
Part 1: model of the CoreFoundation values the wrapper manipulates.

The wrapper stores exactly three CF types: `CFBoolean`, `CFNumber`
(created either with `kCFNumberLongLongType` from a C `long long`, or
with `kCFNumberDoubleType` from a C `double`) and `CFString`.
`CFGetTypeID` distinguishes those three classes only: a long-long-backed
number and a double-backed number share the single `CFNumberGetTypeID`
(the source's own comments on the readers say "1 if value exists and is
number").  Finite IEEE-754 doubles are modelled by the rational number
they denote (every finite double denotes a distinct rational; the model
identifies +0.0 and -0.0, which denote the same value).
-/

/-- Payload of a stored `CFNumber`: either a 64-bit integer created with
`kCFNumberLongLongType`, or a finite double created with
`kCFNumberDoubleType`, modelled by the rational it denotes. -/
inductive CFNum where
  | ll : Int → CFNum
  | dbl : Rat → CFNum
  deriving DecidableEq, Repr

/-- A value stored under a (domain, key) pair: one of the three CF types
the wrapper ever stores.  Text is kept as its UTF-8 byte sequence (the
form in which it crosses the C boundary in both directions). -/
inductive CFPref where
  | boolean : Bool → CFPref
  | number : CFNum → CFPref
  | cfstring : List UInt8 → CFPref
  deriving DecidableEq, Repr

/-- The preference store state visible to `CFPreferencesCopyAppValue`:
an association list from (domain, key) to the stored value.  Later
entries shadowing is avoided by removal on update. -/
def Store := List ((String × String) × CFPref)

instance : DecidableEq Store := by
  unfold Store
  infer_instance

/-- Model of `CFPreferencesCopyAppValue`: the current value stored for
(domain, key), or none when the key has no entry. -/
def copyAppValue (s : Store) (domain key : String) : Option CFPref :=
  (s.find? (fun e => e.1.1 == domain && e.1.2 == key)).map (fun e => e.2)

/-- Model of `CFPreferencesSetAppValue`: passing a value sets the
(domain, key) entry, overwriting any prior value of any kind; passing
`none` (a NULL value in C) removes the entry. -/
def setAppValue (s : Store) (domain key : String) (v : Option CFPref) : Store :=
  let rest := s.filter (fun e => !(e.1.1 == domain && e.1.2 == key))
  match v with
  | some val => ((domain, key), val) :: rest
  | none => rest

/-- Odd part of a natural number with explicit fuel (structural
recursion, so that the kernel can evaluate it): repeatedly halve while
even and nonzero. -/
def oddPartAux : Nat → Nat → Nat
  | 0, n => n
  | fuel + 1, n => if n % 2 == 0 && n != 0 then oddPartAux fuel (n / 2) else n

/-- Odd part of a natural number: `n` divided by the largest power of two
dividing it (0 for 0). -/
def oddPart (n : Nat) : Nat := oddPartAux n n

/-- Whether a 64-bit integer is exactly representable as an IEEE-754
double: its odd part must fit in the 53-bit significand. -/
def int64DblExact (n : Int) : Bool := oddPart n.natAbs < 2 ^ 53

/-- Model of `CFNumberGetValue` with `kCFNumberLongLongType`: succeeds
with the exact value for a long-long-backed number; for a double-backed
number the conversion succeeds only when it is lossless (integral value
in 64-bit range), otherwise `CFNumberGetValue` returns false. -/
def numberGetLL : CFNum → Option Int
  | .ll n => some n
  | .dbl q =>
    if q.den == 1 && (-(2 ^ 63) : Int) ≤ q.num && q.num < 2 ^ 63 then some q.num else none

/-- Model of `CFNumberGetValue` with `kCFNumberDoubleType`: succeeds with
the exact value for a double-backed number; for a long-long-backed number
the conversion succeeds only when the integer is exactly representable as
a double, otherwise `CFNumberGetValue` returns false (lossy). -/
def numberGetDbl : CFNum → Option Rat
  | .dbl q => some q
  | .ll n => if int64DblExact n then some (n : Rat) else none

/-- Continuation byte of a UTF-8 sequence: 0x80..0xBF. -/
def utf8Cont (b : UInt8) : Bool := 0x80 ≤ b.toNat && b.toNat ≤ 0xBF

/-- Strict RFC-3629 UTF-8 validity of a byte sequence, modelling whether
`CFStringCreateWithCString(..., kCFStringEncodingUTF8)` accepts the bytes
(it returns NULL on invalid UTF-8). -/
def utf8Valid : List UInt8 → Bool
  | [] => true
  | b :: rest =>
    let n := b.toNat
    if n ≤ 0x7F then utf8Valid rest
    else if 0xC2 ≤ n && n ≤ 0xDF then
      match rest with
      | c1 :: r => utf8Cont c1 && utf8Valid r
      | [] => false
    else if n == 0xE0 then
      match rest with
      | c1 :: c2 :: r => (0xA0 ≤ c1.toNat && c1.toNat ≤ 0xBF) && utf8Cont c2 && utf8Valid r
      | _ => false
    else if (0xE1 ≤ n && n ≤ 0xEC) || n == 0xEE || n == 0xEF then
      match rest with
      | c1 :: c2 :: r => utf8Cont c1 && utf8Cont c2 && utf8Valid r
      | _ => false
    else if n == 0xED then
      match rest with
      | c1 :: c2 :: r => (0x80 ≤ c1.toNat && c1.toNat ≤ 0x9F) && utf8Cont c2 && utf8Valid r
      | _ => false
    else if n == 0xF0 then
      match rest with
      | c1 :: c2 :: c3 :: r =>
        (0x90 ≤ c1.toNat && c1.toNat ≤ 0xBF) && utf8Cont c2 && utf8Cont c3 && utf8Valid r
      | _ => false
    else if 0xF1 ≤ n && n ≤ 0xF3 then
      match rest with
      | c1 :: c2 :: c3 :: r => utf8Cont c1 && utf8Cont c2 && utf8Cont c3 && utf8Valid r
      | _ => false
    else if n == 0xF4 then
      match rest with
      | c1 :: c2 :: c3 :: r =>
        (0x80 ≤ c1.toNat && c1.toNat ≤ 0x8F) && utf8Cont c2 && utf8Cont c3 && utf8Valid r
      | _ => false
    else false

/-- Result of an embedded mutating operation: the store state after the
call, whether `CFPreferencesAppSynchronize` was invoked, and the C return
value (`ok = true` models return 1). -/
structure WriteResult where
  state : Store
  flushed : Bool
  ok : Bool
  deriving DecidableEq

/-!
Part 2: shallow embedding of the `cfpreferences_*` functions of
`src/cfprefs_wrapper.c`.

Domains and keys are modelled as `String` (the spec assumes valid,
non-null text for both, so the unchecked `CFStringCreateWithCString`
calls on them are modelled as always succeeding).  The outcome of the
external durability flush `CFPreferencesAppSynchronize` is the input
`syncOk`; the outcome of the external allocation `CFNumberCreate` is the
input `allocOk`.
-/

/-- Embedding of `cfpreferences_write_boolean`: stores
`value ? kCFBooleanTrue : kCFBooleanFalse` under (domain, key), then
synchronizes; returns 1 exactly when the flush succeeded. -/
def cfpreferences_write_boolean (s : Store) (domain key : String) (value : Int)
    (syncOk : Bool) : WriteResult :=
  let s1 := setAppValue s domain key (some (CFPref.boolean (value != 0)))
  { state := s1, flushed := true, ok := syncOk }

/-- Embedding of `cfpreferences_write_integer`: creates a
`kCFNumberLongLongType` number (failing early, before any store mutation
or flush, when `CFNumberCreate` returns NULL), stores it, synchronizes,
and returns 1 exactly when the flush succeeded. -/
def cfpreferences_write_integer (s : Store) (domain key : String) (value : Int)
    (allocOk syncOk : Bool) : WriteResult :=
  if !allocOk then { state := s, flushed := false, ok := false }
  else
    let s1 := setAppValue s domain key (some (CFPref.number (CFNum.ll value)))
    { state := s1, flushed := true, ok := syncOk }

/-- Embedding of `cfpreferences_write_float`: creates a
`kCFNumberDoubleType` number (failing early, before any store mutation or
flush, when `CFNumberCreate` returns NULL), stores it, synchronizes, and
returns 1 exactly when the flush succeeded. -/
def cfpreferences_write_float (s : Store) (domain key : String) (value : Rat)
    (allocOk syncOk : Bool) : WriteResult :=
  if !allocOk then { state := s, flushed := false, ok := false }
  else
    let s1 := setAppValue s domain key (some (CFPref.number (CFNum.dbl value)))
    { state := s1, flushed := true, ok := syncOk }

/-- Embedding of `cfpreferences_write_string`: converts the value's bytes
with `CFStringCreateWithCString` (failing early, before any store
mutation or flush, on invalid UTF-8), stores the string, synchronizes,
and returns 1 exactly when the flush succeeded. -/
def cfpreferences_write_string (s : Store) (domain key : String) (value : List UInt8)
    (syncOk : Bool) : WriteResult :=
  if !utf8Valid value then { state := s, flushed := false, ok := false }
  else
    let s1 := setAppValue s domain key (some (CFPref.cfstring value))
    { state := s1, flushed := true, ok := syncOk }

/-- Embedding of `cfpreferences_read_boolean`: returns 0 (here `none`)
when the key has no entry, and also returns 0 when the entry's
`CFGetTypeID` is not `CFBooleanGetTypeID`; otherwise returns 1 with the
boolean written to the out-parameter. -/
def cfpreferences_read_boolean (s : Store) (domain key : String) : Option Bool :=
  match copyAppValue s domain key with
  | none => none
  | some (CFPref.boolean b) => some b
  | some _ => none

/-- Embedding of `cfpreferences_read_integer`: returns 0 (here `none`)
when the key has no entry, and also returns 0 when the entry's
`CFGetTypeID` is not `CFNumberGetTypeID` (booleans and strings); for a
stored number, the result of `CFNumberGetValue` with
`kCFNumberLongLongType` decides success and the out-parameter. -/
def cfpreferences_read_integer (s : Store) (domain key : String) : Option Int :=
  match copyAppValue s domain key with
  | none => none
  | some (CFPref.number n) => numberGetLL n
  | some _ => none

/-- Embedding of `cfpreferences_read_float`: returns 0 (here `none`) when
the key has no entry, and also returns 0 when the entry's `CFGetTypeID`
is not `CFNumberGetTypeID` (booleans and strings); for a stored number,
the result of `CFNumberGetValue` with `kCFNumberDoubleType` decides
success and the out-parameter. -/
def cfpreferences_read_float (s : Store) (domain key : String) : Option Rat :=
  match copyAppValue s domain key with
  | none => none
  | some (CFPref.number n) => numberGetDbl n
  | some _ => none

/-- Embedding of `cfpreferences_read_string`: returns 0 (here `none`)
when the key has no entry or the entry is not a `CFString`; otherwise
`CFStringGetCString` succeeds exactly when the UTF-8 bytes plus the NUL
terminator fit in the caller's buffer of `bufferSize` bytes, writing the
full text (never a truncated prefix) into the caller's buffer. -/
def cfpreferences_read_string (s : Store) (domain key : String)
    (bufferSize : Int) : Option (List UInt8) :=
  match copyAppValue s domain key with
  | none => none
  | some (CFPref.cfstring bs) =>
    if (bs.length : Int) + 1 ≤ bufferSize then some bs else none
  | some _ => none

/-- Embedding of `cfpreferences_key_exists`: true exactly when
`CFPreferencesCopyAppValue` returns an entry of any kind. -/
def cfpreferences_key_exists (s : Store) (domain key : String) : Bool :=
  (copyAppValue s domain key).isSome

/-- Embedding of `cfpreferences_delete_key`: stores NULL for the key
(removing any entry), synchronizes, and returns 1 exactly when the flush
succeeded. -/
def cfpreferences_delete_key (s : Store) (domain key : String)
    (syncOk : Bool) : WriteResult :=
  let s1 := setAppValue s domain key none
  { state := s1, flushed := true, ok := syncOk }

/-!
Part 3: shallow embedding of the `zig_mrb_*` helpers of
`src/mruby_helpers.c`.

The helpers are one-line wrappers over the mruby headers' tagged-value
macros.  Modelled from the spec: the mruby macro definitions themselves
(`mrb_type`, `mrb_nil_p`, ..., `mrb_obj_value`, `mrb_nil_value`) are not
under `src/`; a Dynamic Value is modelled, following the spec's
tagged-value description and the type-constant table in the source's
comments (src/mruby_helpers.c lines 67-92), as a raw type tag plus a
payload word, where tag `MRB_TT_FALSE = 0` covers both nil (payload 0)
and false (payload nonzero) and every other kind is determined by its
tag alone. -/
structure mrb_value where
  tt : Nat
  payload : Int
  deriving DecidableEq

/-- Type tag shared by nil and false (source comment: "MRB_TT_FALSE = 0
(for both false and nil)"). -/
def MRB_TT_FALSE : Nat := 0

/-- Type tag of true. -/
def MRB_TT_TRUE : Nat := 2

/-- Type tag of integers. -/
def MRB_TT_INTEGER : Nat := 3

/-- Type tag of symbols. -/
def MRB_TT_SYMBOL : Nat := 4

/-- Type tag of floats. -/
def MRB_TT_FLOAT : Nat := 6

/-- Type tag of plain objects (a runtime-internal kind with no dedicated
predicate in the wrapper). -/
def MRB_TT_OBJECT : Nat := 8

/-- Type tag of procs (a runtime-internal kind with no dedicated
predicate in the wrapper). -/
def MRB_TT_PROC : Nat := 13

/-- Type tag of arrays. -/
def MRB_TT_ARRAY : Nat := 14

/-- Type tag of hashes. -/
def MRB_TT_HASH : Nat := 15

/-- Type tag of strings. -/
def MRB_TT_STRING : Nat := 16

/-- Type tag of exception objects (a runtime-internal kind with no
dedicated predicate in the wrapper). -/
def MRB_TT_EXCEPTION : Nat := 18

/-- Embedding of `zig_mrb_type`: the raw type tag (`mrb_type`). -/
def zig_mrb_type (v : mrb_value) : Nat := v.tt

/-- Embedding of `zig_mrb_nil_p`: tag `MRB_TT_FALSE` with the zero
payload that marks nil. -/
def zig_mrb_nil_p (v : mrb_value) : Bool :=
  v.tt == MRB_TT_FALSE && v.payload == 0

/-- Embedding of `zig_mrb_true_p`: tag `MRB_TT_TRUE`. -/
def zig_mrb_true_p (v : mrb_value) : Bool := v.tt == MRB_TT_TRUE

/-- Embedding of `zig_mrb_false_p`: tag `MRB_TT_FALSE` with the nonzero
payload that distinguishes false from nil. -/
def zig_mrb_false_p (v : mrb_value) : Bool :=
  v.tt == MRB_TT_FALSE && v.payload != 0

/-- Embedding of `zig_mrb_integer_p`: tag `MRB_TT_INTEGER`. -/
def zig_mrb_integer_p (v : mrb_value) : Bool := v.tt == MRB_TT_INTEGER

/-- Embedding of `zig_mrb_float_p`: tag `MRB_TT_FLOAT`. -/
def zig_mrb_float_p (v : mrb_value) : Bool := v.tt == MRB_TT_FLOAT

/-- Embedding of `zig_mrb_string_p`: tag `MRB_TT_STRING`. -/
def zig_mrb_string_p (v : mrb_value) : Bool := v.tt == MRB_TT_STRING

/-- Embedding of `zig_mrb_array_p`: tag `MRB_TT_ARRAY`. -/
def zig_mrb_array_p (v : mrb_value) : Bool := v.tt == MRB_TT_ARRAY

/-- Embedding of `zig_mrb_hash_p`: tag `MRB_TT_HASH`. -/
def zig_mrb_hash_p (v : mrb_value) : Bool := v.tt == MRB_TT_HASH

/-- Embedding of `zig_mrb_symbol_p`: tag `MRB_TT_SYMBOL`. -/
def zig_mrb_symbol_p (v : mrb_value) : Bool := v.tt == MRB_TT_SYMBOL

/-- Modelled from the spec: `mrb_nil_value()` (used at
src/mruby_helpers.c line 152, defined in the mruby headers) is the nil
singleton: tag `MRB_TT_FALSE`, payload 0. -/
def mrb_nil_value : mrb_value := ⟨MRB_TT_FALSE, 0⟩

/-- Embedding of `zig_mrb_true_value` (`mrb_true_value()`): tag
`MRB_TT_TRUE`, payload 1. -/
def zig_mrb_true_value : mrb_value := ⟨MRB_TT_TRUE, 1⟩

/-- Embedding of `zig_mrb_false_value` (`mrb_false_value()`): the false
singleton, tag `MRB_TT_FALSE` with nonzero payload 1. -/
def zig_mrb_false_value : mrb_value := ⟨MRB_TT_FALSE, 1⟩

/-- Embedding of `zig_mrb_int_value` (`mrb_int_value`): tag
`MRB_TT_INTEGER` carrying the integer. -/
def zig_mrb_int_value (i : Int) : mrb_value := ⟨MRB_TT_INTEGER, i⟩

/-- Model of a heap `RObject` the runtime's exception slot can point to:
its type tag and its (nonzero, for a live object) address. -/
structure RObject where
  tt : Nat
  addr : Nat
  deriving DecidableEq

/-- Model of the `mrb_state` fields the helpers touch: the pending
exception slot `mrb->exc` (`none` models NULL). -/
structure mrb_state where
  exc : Option RObject
  deriving DecidableEq

/-- Modelled from the spec: `mrb_obj_value` (mruby headers, not under
`src/`) tags a heap object pointer with the object's own type tag; the
payload is the object's address. -/
def mrb_obj_value (o : RObject) : mrb_value := ⟨o.tt, (o.addr : Int)⟩

/-- Embedding of `zig_mrb_has_exception`: `mrb->exc != NULL`. -/
def zig_mrb_has_exception (mrb : mrb_state) : Bool := mrb.exc.isSome

/-- Embedding of `zig_mrb_get_exception`: returns `mrb_obj_value(mrb->exc)`
when an exception is pending and `mrb_nil_value()` otherwise.  The
function only reads `mrb->exc`; the state component of the result is the
unchanged runtime state, recording that the pending exception is not
cleared. -/
def zig_mrb_get_exception (mrb : mrb_state) : mrb_value × mrb_state :=
  match mrb.exc with
  | some o => (mrb_obj_value o, mrb)
  | none => (mrb_nil_value, mrb)

/-- Number of the nine `is_*` wrapper predicates that hold of a value. -/
def predCount (v : mrb_value) : Nat :=
  (zig_mrb_nil_p v).toNat + (zig_mrb_true_p v).toNat + (zig_mrb_false_p v).toNat +
    (zig_mrb_integer_p v).toNat + (zig_mrb_float_p v).toNat + (zig_mrb_string_p v).toNat +
    (zig_mrb_array_p v).toNat + (zig_mrb_hash_p v).toNat + (zig_mrb_symbol_p v).toNat

/-- Type tags constructible through the bridge's dedicated predicates:
nil/false, true, integer, symbol, float, array, hash, string. -/
def constructibleTag (t : Nat) : Bool :=
  t == MRB_TT_FALSE || t == MRB_TT_TRUE || t == MRB_TT_INTEGER || t == MRB_TT_SYMBOL ||
    t == MRB_TT_FLOAT || t == MRB_TT_ARRAY || t == MRB_TT_HASH || t == MRB_TT_STRING

/-!
Part 4: helper lemmas about the store model, shared by the claim
theorems below.
-/

/-- Setting a (domain, key) entry makes it the value `copyAppValue`
returns for that pair. -/
theorem copyAppValue_set_same (s : Store) (d k : String) (v : CFPref) :
    copyAppValue (setAppValue s d k (some v)) d k = some v := by
  simp [copyAppValue, setAppValue]

/-- Removing a (domain, key) entry leaves `copyAppValue` with no entry
for that pair. -/
theorem copyAppValue_del_same (s : Store) (d k : String) :
    copyAppValue (setAppValue s d k none) d k = none := by
  have h : List.find? (fun e => e.1.1 == d && e.1.2 == k) (setAppValue s d k none)
      = none := by
    rw [List.find?_eq_none]
    intro x hx
    unfold setAppValue at hx
    have hx2 := (List.mem_filter.mp hx).2
    simp only [Bool.not_eq_eq_eq_not, Bool.not_true] at hx2
    simp [hx2]
  simp [copyAppValue, h]

/-!
Part 5: the claim theorems.
-/

/-- C10: if the internal number-object creation (`CFNumberCreate`) fails
during `cfpreferences_write_integer` or `cfpreferences_write_float`, the
operation returns failure without setting any value in the store and
without performing a flush, leaving the stored state unchanged. -/
theorem write_number_alloc_failure_is_inert :
    ∀ (s : Store) (domain key : String) (iv : Int) (q : Rat) (syncOk : Bool),
      cfpreferences_write_integer s domain key iv false syncOk
          = { state := s, flushed := false, ok := false } ∧
        cfpreferences_write_float s domain key q false syncOk
          = { state := s, flushed := false, ok := false } := by
  intro s domain key iv q syncOk
  exact ⟨rfl, rfl⟩

/-- C9: the nil predicate and the false predicate are never both true of
any Dynamic Value; nil and false share the raw type tag `MRB_TT_FALSE`
(so `zig_mrb_type` cannot separate them), yet `zig_mrb_nil_p` holds only
for nil and `zig_mrb_false_p` holds only for false. -/
theorem nil_and_false_distinguishable :
    (∀ v : mrb_value, (zig_mrb_nil_p v && zig_mrb_false_p v) = false) ∧
      zig_mrb_type mrb_nil_value = zig_mrb_type zig_mrb_false_value ∧
      zig_mrb_nil_p mrb_nil_value = true ∧
      zig_mrb_false_p mrb_nil_value = false ∧
      zig_mrb_nil_p zig_mrb_false_value = false ∧
      zig_mrb_false_p zig_mrb_false_value = true := by
  refine ⟨?_, by decide, by decide, by decide, by decide, by decide⟩
  intro v
  cases hp : v.payload == 0 <;>
    simp [zig_mrb_nil_p, zig_mrb_false_p, hp, bne]

/-- C6: `cfpreferences_delete_key` removes the (domain, key) entry,
performs the same durability flush as a write, and returns failure
exactly when the flush fails; deleting an already-absent key succeeds
(when the flush succeeds) and leaves `cfpreferences_key_exists` false. -/
theorem delete_key_contract :
    ∀ (s : Store) (domain key : String) (syncOk : Bool),
      (cfpreferences_delete_key s domain key syncOk).ok = syncOk ∧
        (cfpreferences_delete_key s domain key syncOk).flushed = true ∧
        copyAppValue (cfpreferences_delete_key s domain key syncOk).state domain key
          = none ∧
        cfpreferences_key_exists (cfpreferences_delete_key s domain key syncOk).state
            domain key = false ∧
        (cfpreferences_key_exists s domain key = false →
          (cfpreferences_delete_key s domain key true).ok = true) := by
  intro s domain key syncOk
  refine ⟨rfl, rfl, copyAppValue_del_same s domain key, ?_, fun _ => rfl⟩
  simp [cfpreferences_key_exists, cfpreferences_delete_key,
    copyAppValue_del_same s domain key]

/-- C6 witness: deleting a key from the empty store (where it is absent)
returns success and leaves the key non-existent. -/
theorem delete_key_contract_witness :
    cfpreferences_key_exists [] "com.example.app" "retryCount" = false ∧
      (cfpreferences_delete_key [] "com.example.app" "retryCount" true).ok = true ∧
      cfpreferences_key_exists
          (cfpreferences_delete_key [] "com.example.app" "retryCount" true).state
          "com.example.app" "retryCount" = false := by
  have h := delete_key_contract [] "com.example.app" "retryCount" true
  exact ⟨by decide, h.2.2.2.2 (by decide), h.2.2.2.1⟩

/-- C5: `cfpreferences_read_string` fails when the stored text (plus the
NUL terminator) does not fit the caller's buffer capacity, never silently
truncates, and on success delivers exactly the stored text, which fits
the capacity. -/
theorem read_string_capacity_contract :
    ∀ (s : Store) (domain key : String) (bufferSize : Int) (bs out : List UInt8),
      (copyAppValue s domain key = some (CFPref.cfstring bs) →
        ((bs.length : Int) + 1 ≤ bufferSize →
          cfpreferences_read_string s domain key bufferSize = some bs) ∧
        (bufferSize < (bs.length : Int) + 1 →
          cfpreferences_read_string s domain key bufferSize = none)) ∧
      (cfpreferences_read_string s domain key bufferSize = some out →
        copyAppValue s domain key = some (CFPref.cfstring out) ∧
          (out.length : Int) + 1 ≤ bufferSize) := by
  intro s domain key bufferSize bs out
  constructor
  · intro h
    constructor
    · intro hfit
      simp [cfpreferences_read_string, h, hfit]
    · intro hbig
      simp [cfpreferences_read_string, h]
      omega
  · intro h
    unfold cfpreferences_read_string at h
    rcases hc : copyAppValue s domain key with - | v
    · rw [hc] at h; exact absurd h (by simp)
    · rw [hc] at h
      cases v with
      | boolean b => exact absurd h (by simp)
      | number n => exact absurd h (by simp)
      | cfstring l =>
        by_cases hfit : (l.length : Int) + 1 ≤ bufferSize
        · simp [hfit] at h
          subst h
          exact ⟨rfl, hfit⟩
        · simp [hfit] at h

/-- C5 witness: with the two-byte text "hi" stored, a three-byte buffer
succeeds with the exact text and a two-byte buffer fails. -/
theorem read_string_capacity_contract_witness :
    cfpreferences_read_string [(("d", "k"), CFPref.cfstring [0x68, 0x69])] "d" "k" 3
        = some [0x68, 0x69] ∧
      cfpreferences_read_string [(("d", "k"), CFPref.cfstring [0x68, 0x69])] "d" "k" 2
        = none :=
  ⟨((read_string_capacity_contract [(("d", "k"), CFPref.cfstring [0x68, 0x69])] "d" "k" 3
      [0x68, 0x69] [0x68, 0x69]).1 (by decide)).1 (by decide),
    ((read_string_capacity_contract [(("d", "k"), CFPref.cfstring [0x68, 0x69])] "d" "k" 2
      [0x68, 0x69] [0x68, 0x69]).1 (by decide)).2 (by decide)⟩

/-- C8: when a pending exception is present, `zig_mrb_has_exception`
returns true and `zig_mrb_get_exception` returns a non-Nil value; when
none is pending, it returns false and the Nil value; and
`zig_mrb_get_exception` leaves the runtime state (hence the pending
exception) unchanged. -/
theorem exception_inspection_contract :
    ∀ (mrb : mrb_state),
      (mrb.exc = none →
        zig_mrb_has_exception mrb = false ∧
          (zig_mrb_get_exception mrb).1 = mrb_nil_value) ∧
        (∀ o : RObject, mrb.exc = some o → o.addr ≠ 0 →
          zig_mrb_has_exception mrb = true ∧
            zig_mrb_nil_p (zig_mrb_get_exception mrb).1 = false) ∧
        (zig_mrb_get_exception mrb).2 = mrb := by
  intro mrb
  refine ⟨?_, ?_, ?_⟩
  · intro h
    simp [zig_mrb_has_exception, zig_mrb_get_exception, h]
  · intro o h ha
    refine ⟨by simp [zig_mrb_has_exception, h], ?_⟩
    simp [zig_mrb_get_exception, h, zig_mrb_nil_p, mrb_obj_value]
    intro
    omega
  · unfold zig_mrb_get_exception
    cases h : mrb.exc <;> rfl

/-- C8 witness: a runtime with no pending exception reports false and
Nil; a runtime whose exception slot holds a live exception object (tag
`MRB_TT_EXCEPTION`, nonzero address) reports true and a non-Nil value. -/
theorem exception_inspection_contract_witness :
    (zig_mrb_has_exception ⟨none⟩ = false ∧
        (zig_mrb_get_exception ⟨none⟩).1 = mrb_nil_value) ∧
      zig_mrb_has_exception ⟨some ⟨MRB_TT_EXCEPTION, 1⟩⟩ = true ∧
        zig_mrb_nil_p (zig_mrb_get_exception ⟨some ⟨MRB_TT_EXCEPTION, 1⟩⟩).1 = false :=
  ⟨(exception_inspection_contract ⟨none⟩).1 rfl,
    (exception_inspection_contract ⟨some ⟨MRB_TT_EXCEPTION, 1⟩⟩).2.1
      ⟨MRB_TT_EXCEPTION, 1⟩ rfl (by decide)⟩

/-- C3: a successful `write_<kind>` followed by `read_<kind>` of the same
(domain, key) returns the written value exactly: the exact boolean, the
exact 64-bit integer, the exact finite double, and the exact text when
the stored text fits the caller's buffer capacity. -/
theorem write_read_round_trip :
    ∀ (s : Store) (domain key : String) (allocOk syncOk : Bool) (bv iv : Int) (q : Rat)
      (sv : List UInt8) (bufferSize : Int),
      ((cfpreferences_write_boolean s domain key bv syncOk).ok = true →
        cfpreferences_read_boolean
            (cfpreferences_write_boolean s domain key bv syncOk).state domain key
          = some (bv != 0)) ∧
        ((cfpreferences_write_integer s domain key iv allocOk syncOk).ok = true →
          cfpreferences_read_integer
              (cfpreferences_write_integer s domain key iv allocOk syncOk).state domain key
            = some iv) ∧
        ((cfpreferences_write_float s domain key q allocOk syncOk).ok = true →
          cfpreferences_read_float
              (cfpreferences_write_float s domain key q allocOk syncOk).state domain key
            = some q) ∧
        ((cfpreferences_write_string s domain key sv syncOk).ok = true →
          (sv.length : Int) + 1 ≤ bufferSize →
          cfpreferences_read_string
              (cfpreferences_write_string s domain key sv syncOk).state domain key bufferSize
            = some sv) := by
  intro s domain key allocOk syncOk bv iv q sv bufferSize
  refine ⟨?_, ?_, ?_, ?_⟩
  · intro _
    simp [cfpreferences_write_boolean, cfpreferences_read_boolean,
      copyAppValue_set_same]
  · intro hok
    cases allocOk with
    | false => exact absurd hok (by simp [cfpreferences_write_integer])
    | true =>
      simp [cfpreferences_write_integer, cfpreferences_read_integer,
        copyAppValue_set_same, numberGetLL]
  · intro hok
    cases allocOk with
    | false => exact absurd hok (by simp [cfpreferences_write_float])
    | true =>
      simp [cfpreferences_write_float, cfpreferences_read_float,
        copyAppValue_set_same, numberGetDbl]
  · intro hok hfit
    cases hv : utf8Valid sv with
    | false => exact absurd hok (by simp [cfpreferences_write_string, hv])
    | true =>
      simp [cfpreferences_write_string, cfpreferences_read_string, hv,
        copyAppValue_set_same, hfit]

/-- C3 witness: the spec's concrete scenario value, integer 3 under
("com.example.app", "retryCount"), round-trips, as do a boolean, a float
and the text "x" with a two-byte buffer. -/
theorem write_read_round_trip_witness :
    cfpreferences_read_boolean
        (cfpreferences_write_boolean [] "com.example.app" "retryCount" 1 true).state
        "com.example.app" "retryCount" = some true ∧
      cfpreferences_read_integer
          (cfpreferences_write_integer [] "com.example.app" "retryCount" 3 true true).state
          "com.example.app" "retryCount" = some 3 ∧
      cfpreferences_read_float
          (cfpreferences_write_float [] "com.example.app" "retryCount" 4 true true).state
          "com.example.app" "retryCount" = some 4 ∧
      cfpreferences_read_string
          (cfpreferences_write_string [] "com.example.app" "retryCount" [0x78] true).state
          "com.example.app" "retryCount" 2 = some [0x78] := by
  have h := write_read_round_trip [] "com.example.app" "retryCount" true true 1 3 4 [0x78] 2
  exact ⟨h.1 (by decide), h.2.1 (by decide), h.2.2.1 (by decide),
    h.2.2.2 (by decide) (by decide)⟩

/-- C7: the type predicates are total over any Dynamic Value: for every
value whose tag is one of the constructible kinds (nil/false, true,
integer, symbol, float, array, hash, string) exactly one of the nine
`is_*` predicates returns true; for every other (runtime-internal) tag
none returns true; and the raw `zig_mrb_type` tag agrees with whichever
predicate matched. -/
theorem type_predicates_partition :
    ∀ v : mrb_value,
      (constructibleTag (zig_mrb_type v) = true → predCount v = 1) ∧
        (constructibleTag (zig_mrb_type v) = false → predCount v = 0) ∧
        (zig_mrb_nil_p v = true → zig_mrb_type v = MRB_TT_FALSE) ∧
        (zig_mrb_false_p v = true → zig_mrb_type v = MRB_TT_FALSE) ∧
        (zig_mrb_true_p v = true → zig_mrb_type v = MRB_TT_TRUE) ∧
        (zig_mrb_integer_p v = true → zig_mrb_type v = MRB_TT_INTEGER) ∧
        (zig_mrb_float_p v = true → zig_mrb_type v = MRB_TT_FLOAT) ∧
        (zig_mrb_string_p v = true → zig_mrb_type v = MRB_TT_STRING) ∧
        (zig_mrb_array_p v = true → zig_mrb_type v = MRB_TT_ARRAY) ∧
        (zig_mrb_hash_p v = true → zig_mrb_type v = MRB_TT_HASH) ∧
        (zig_mrb_symbol_p v = true → zig_mrb_type v = MRB_TT_SYMBOL) := by
  intro v
  obtain ⟨t, p⟩ := v
  refine ⟨?_, ?_, ?_, ?_, ?_, ?_, ?_, ?_, ?_, ?_, ?_⟩
  · intro h
    simp only [constructibleTag, zig_mrb_type, MRB_TT_FALSE, MRB_TT_TRUE, MRB_TT_INTEGER,
      MRB_TT_SYMBOL, MRB_TT_FLOAT, MRB_TT_ARRAY, MRB_TT_HASH, MRB_TT_STRING,
      Bool.or_eq_true, beq_iff_eq] at h
    rcases h with ((((((h | h) | h) | h) | h) | h) | h) | h <;> subst h <;>
      cases hp : p == 0 <;>
      simp [predCount, zig_mrb_nil_p, zig_mrb_true_p, zig_mrb_false_p, zig_mrb_integer_p,
        zig_mrb_float_p, zig_mrb_string_p, zig_mrb_array_p, zig_mrb_hash_p, zig_mrb_symbol_p,
        MRB_TT_FALSE, MRB_TT_TRUE, MRB_TT_INTEGER, MRB_TT_SYMBOL, MRB_TT_FLOAT, MRB_TT_ARRAY,
        MRB_TT_HASH, MRB_TT_STRING, bne, hp]
  · intro h
    simp only [constructibleTag, zig_mrb_type, MRB_TT_FALSE, MRB_TT_TRUE, MRB_TT_INTEGER,
      MRB_TT_SYMBOL, MRB_TT_FLOAT, MRB_TT_ARRAY, MRB_TT_HASH, MRB_TT_STRING,
      Bool.or_eq_false_iff, beq_eq_false_iff_ne, ne_eq] at h
    obtain ⟨⟨⟨⟨⟨⟨⟨h0, h2⟩, h3⟩, h4⟩, h6⟩, h14⟩, h15⟩, h16⟩ := h
    simp [predCount, zig_mrb_nil_p, zig_mrb_true_p, zig_mrb_false_p, zig_mrb_integer_p,
      zig_mrb_float_p, zig_mrb_string_p, zig_mrb_array_p, zig_mrb_hash_p, zig_mrb_symbol_p,
      MRB_TT_FALSE, MRB_TT_TRUE, MRB_TT_INTEGER, MRB_TT_SYMBOL, MRB_TT_FLOAT, MRB_TT_ARRAY,
      MRB_TT_HASH, MRB_TT_STRING, h0, h2, h3, h4, h6, h14, h15, h16]
  · intro h
    simp only [zig_mrb_nil_p, Bool.and_eq_true, beq_iff_eq] at h
    exact h.1
  · intro h
    simp only [zig_mrb_false_p, Bool.and_eq_true, beq_iff_eq] at h
    exact h.1
  · intro h
    simp only [zig_mrb_true_p, beq_iff_eq] at h
    exact h
  · intro h
    simp only [zig_mrb_integer_p, beq_iff_eq] at h
    exact h
  · intro h
    simp only [zig_mrb_float_p, beq_iff_eq] at h
    exact h
  · intro h
    simp only [zig_mrb_string_p, beq_iff_eq] at h
    exact h
  · intro h
    simp only [zig_mrb_array_p, beq_iff_eq] at h
    exact h
  · intro h
    simp only [zig_mrb_hash_p, beq_iff_eq] at h
    exact h
  · intro h
    simp only [zig_mrb_symbol_p, beq_iff_eq] at h
    exact h

/-- C7 witness: an integer value satisfies exactly one predicate with an
agreeing tag; a proc (runtime-internal, no dedicated predicate)
satisfies none. -/
theorem type_predicates_partition_witness :
    predCount ⟨MRB_TT_INTEGER, 7⟩ = 1 ∧ predCount ⟨MRB_TT_PROC, 1⟩ = 0 ∧
      zig_mrb_type ⟨MRB_TT_INTEGER, 7⟩ = MRB_TT_INTEGER :=
  ⟨(type_predicates_partition ⟨MRB_TT_INTEGER, 7⟩).1 (by decide),
    (type_predicates_partition ⟨MRB_TT_PROC, 1⟩).2.1 (by decide),
    (type_predicates_partition ⟨MRB_TT_INTEGER, 7⟩).2.2.2.2.2.1 (by decide)⟩

/-- C1 counterexample: the typed reads do not distinguish absence from
type mismatch: `cfpreferences_read_boolean` returns the same failure
result (0, here `none`) on a key with no entry and on a key whose entry
is a number. -/
theorem read_collapse_counterexample :
    cfpreferences_read_boolean [] "d" "k"
        = cfpreferences_read_boolean [(("d", "k"), CFPref.number (CFNum.ll 3))] "d" "k" ∧
      copyAppValue [] "d" "k" = none ∧
      copyAppValue [(("d", "k"), CFPref.number (CFNum.ll 3))] "d" "k"
        = some (CFPref.number (CFNum.ll 3)) := by
  decide

/-- C1 amended: each typed read returns either success with the typed
value or the single failure result 0 (`none`); a key with no entry and a
key whose entry has a different CF class both produce that same failure
result, so absence and type mismatch are distinguished not by the read's
return value but only through the separate `cfpreferences_key_exists`
operation. -/
theorem typed_read_characterization :
    ∀ (s : Store) (domain key : String) (bufferSize : Int),
      (copyAppValue s domain key = none →
        cfpreferences_key_exists s domain key = false ∧
          cfpreferences_read_boolean s domain key = none ∧
          cfpreferences_read_integer s domain key = none ∧
          cfpreferences_read_float s domain key = none ∧
          cfpreferences_read_string s domain key bufferSize = none) ∧
        (∀ b, copyAppValue s domain key = some (CFPref.boolean b) →
          cfpreferences_key_exists s domain key = true ∧
            cfpreferences_read_boolean s domain key = some b ∧
            cfpreferences_read_integer s domain key = none ∧
            cfpreferences_read_float s domain key = none ∧
            cfpreferences_read_string s domain key bufferSize = none) ∧
        (∀ n, copyAppValue s domain key = some (CFPref.number n) →
          cfpreferences_key_exists s domain key = true ∧
            cfpreferences_read_boolean s domain key = none ∧
            cfpreferences_read_string s domain key bufferSize = none) ∧
        (∀ bs, copyAppValue s domain key = some (CFPref.cfstring bs) →
          cfpreferences_key_exists s domain key = true ∧
            cfpreferences_read_boolean s domain key = none ∧
            cfpreferences_read_integer s domain key = none ∧
            cfpreferences_read_float s domain key = none) := by
  intro s domain key bufferSize
  refine ⟨?_, ?_, ?_, ?_⟩
  · intro h
    simp [cfpreferences_key_exists, cfpreferences_read_boolean, cfpreferences_read_integer,
      cfpreferences_read_float, cfpreferences_read_string, h]
  · intro b h
    simp [cfpreferences_key_exists, cfpreferences_read_boolean, cfpreferences_read_integer,
      cfpreferences_read_float, cfpreferences_read_string, h]
  · intro n h
    simp [cfpreferences_key_exists, cfpreferences_read_boolean, cfpreferences_read_integer,
      cfpreferences_read_float, cfpreferences_read_string, h]
  · intro bs h
    simp [cfpreferences_key_exists, cfpreferences_read_boolean, cfpreferences_read_integer,
      cfpreferences_read_float, cfpreferences_read_string, h]

/-- C1 witness: on the empty store every typed read fails with the same
result as `exists` reports false; with a number stored, the boolean read
fails the same way while `exists` reports true. -/
theorem typed_read_characterization_witness :
    (cfpreferences_key_exists [] "d" "k" = false ∧
        cfpreferences_read_boolean [] "d" "k" = none ∧
        cfpreferences_read_integer [] "d" "k" = none ∧
        cfpreferences_read_float [] "d" "k" = none ∧
        cfpreferences_read_string [] "d" "k" 8 = none) ∧
      cfpreferences_key_exists [(("d", "k"), CFPref.number (CFNum.ll 3))] "d" "k" = true ∧
        cfpreferences_read_boolean [(("d", "k"), CFPref.number (CFNum.ll 3))] "d" "k" = none ∧
        cfpreferences_read_string [(("d", "k"), CFPref.number (CFNum.ll 3))] "d" "k" 8
          = none :=
  ⟨(typed_read_characterization [] "d" "k" 8).1 (by decide),
    (typed_read_characterization [(("d", "k"), CFPref.number (CFNum.ll 3))] "d" "k" 8).2.2.1
      (CFNum.ll 3) (by decide)⟩

/-- C2 counterexample: after writing the float 3.0 then the integer 7 to
the same (domain, key), `cfpreferences_read_float` does not report a type
mismatch: both stored values are CFNumbers, and `CFNumberGetValue`
converts the integer 7 losslessly, so the float read succeeds with 7.0. -/
theorem float_then_integer_read_float_counterexample :
    (cfpreferences_write_float [] "d" "k" 3 true true).ok = true ∧
      (cfpreferences_write_integer (cfpreferences_write_float [] "d" "k" 3 true true).state
          "d" "k" 7 true true).ok = true ∧
      cfpreferences_read_integer
          (cfpreferences_write_integer (cfpreferences_write_float [] "d" "k" 3 true true).state
            "d" "k" 7 true true).state "d" "k" = some 7 ∧
      cfpreferences_read_float
          (cfpreferences_write_integer (cfpreferences_write_float [] "d" "k" 3 true true).state
            "d" "k" 7 true true).state "d" "k" = some 7 := by
  decide

/-- C2 amended: reading with a kind of a different CF class (boolean
versus number versus string) is a defined failure and never a coercion;
but integers and floats are both stored as CFNumbers, so after writing a
float then an integer to the same (domain, key), `read_integer` succeeds
with the new integer value and `read_float`, rather than reporting a
type mismatch, succeeds with the integer coerced to double exactly when
that conversion is lossless. -/
theorem numeric_kind_sharing :
    ∀ (s : Store) (domain key : String) (q : Rat) (iv : Int) (syncOk1 syncOk2 : Bool),
      (∀ b, copyAppValue s domain key = some (CFPref.boolean b) →
        cfpreferences_read_integer s domain key = none ∧
          cfpreferences_read_float s domain key = none) ∧
        (∀ bs, copyAppValue s domain key = some (CFPref.cfstring bs) →
          cfpreferences_read_integer s domain key = none ∧
            cfpreferences_read_float s domain key = none) ∧
        cfpreferences_read_integer
            (cfpreferences_write_integer
              (cfpreferences_write_float s domain key q true syncOk1).state
              domain key iv true syncOk2).state domain key = some iv ∧
        cfpreferences_read_float
            (cfpreferences_write_integer
              (cfpreferences_write_float s domain key q true syncOk1).state
              domain key iv true syncOk2).state domain key
          = (if int64DblExact iv then some (iv : Rat) else none) := by
  intro s domain key q iv syncOk1 syncOk2
  refine ⟨?_, ?_, ?_, ?_⟩
  · intro b h
    simp [cfpreferences_read_integer, cfpreferences_read_float, h]
  · intro bs h
    simp [cfpreferences_read_integer, cfpreferences_read_float, h]
  · simp [cfpreferences_write_float, cfpreferences_write_integer,
      cfpreferences_read_integer, copyAppValue_set_same, numberGetLL]
  · simp [cfpreferences_write_float, cfpreferences_write_integer,
      cfpreferences_read_float, copyAppValue_set_same, numberGetDbl]

/-- C2 amended witness: with a boolean stored, both numeric reads fail;
the float-then-integer scenario at the integer 7 succeeds on both
numeric reads. -/
theorem numeric_kind_sharing_witness :
    (cfpreferences_read_integer [(("d", "k"), CFPref.boolean true)] "d" "k" = none ∧
        cfpreferences_read_float [(("d", "k"), CFPref.boolean true)] "d" "k" = none) ∧
      cfpreferences_read_integer
          (cfpreferences_write_integer
            (cfpreferences_write_float [] "d" "k" 3 true true).state
            "d" "k" 7 true true).state "d" "k" = some 7 :=
  ⟨(numeric_kind_sharing [(("d", "k"), CFPref.boolean true)] "d" "k" 3 7 true true).1
      true (by decide),
    (numeric_kind_sharing [] "d" "k" 3 7 true true).2.2.1⟩

/-- C4 counterexample: `cfpreferences_write_integer` can return failure
although no flush failed and no string encoding was involved: when the
internal `CFNumberCreate` fails, the write returns failure without ever
invoking the flush. -/
theorem write_failure_beyond_flush_counterexample :
    (cfpreferences_write_integer [] "d" "k" 5 false true).ok = false ∧
      (cfpreferences_write_integer [] "d" "k" 5 false true).flushed = false := by
  decide

/-- C4 amended: every write that reaches the store mutation performs the
durability flush after setting the value and succeeds exactly when the
flush succeeds; `write_string` additionally fails, without flushing or
mutating, when the value is not representable in UTF-8, and
`write_integer`/`write_float` additionally fail, without flushing or
mutating, when the internal number-object creation fails. -/
theorem write_flush_and_failure_characterization :
    ∀ (s : Store) (domain key : String) (bv iv : Int) (q : Rat) (sv : List UInt8)
      (syncOk : Bool),
      ((cfpreferences_write_boolean s domain key bv syncOk).flushed = true ∧
        (cfpreferences_write_boolean s domain key bv syncOk).state
          = setAppValue s domain key (some (CFPref.boolean (bv != 0))) ∧
        (cfpreferences_write_boolean s domain key bv syncOk).ok = syncOk) ∧
      ((cfpreferences_write_integer s domain key iv true syncOk).flushed = true ∧
        (cfpreferences_write_integer s domain key iv true syncOk).state
          = setAppValue s domain key (some (CFPref.number (CFNum.ll iv))) ∧
        (cfpreferences_write_integer s domain key iv true syncOk).ok = syncOk) ∧
      cfpreferences_write_integer s domain key iv false syncOk
        = { state := s, flushed := false, ok := false } ∧
      ((cfpreferences_write_float s domain key q true syncOk).flushed = true ∧
        (cfpreferences_write_float s domain key q true syncOk).state
          = setAppValue s domain key (some (CFPref.number (CFNum.dbl q))) ∧
        (cfpreferences_write_float s domain key q true syncOk).ok = syncOk) ∧
      cfpreferences_write_float s domain key q false syncOk
        = { state := s, flushed := false, ok := false } ∧
      (utf8Valid sv = true →
        (cfpreferences_write_string s domain key sv syncOk).flushed = true ∧
          (cfpreferences_write_string s domain key sv syncOk).state
            = setAppValue s domain key (some (CFPref.cfstring sv)) ∧
          (cfpreferences_write_string s domain key sv syncOk).ok = syncOk) ∧
      (utf8Valid sv = false →
        cfpreferences_write_string s domain key sv syncOk
          = { state := s, flushed := false, ok := false }) := by
  intro s domain key bv iv q sv syncOk
  refine ⟨⟨rfl, rfl, rfl⟩, ⟨rfl, rfl, rfl⟩, rfl, ⟨rfl, rfl, rfl⟩, rfl, ?_, ?_⟩
  · intro hv
    simp [cfpreferences_write_string, hv]
  · intro hv
    simp [cfpreferences_write_string, hv]

/-- C4 witness: writing the valid one-byte text "a" flushes and
succeeds; writing the invalid byte 0xFF fails without flushing or
mutating the store. -/
theorem write_flush_and_failure_characterization_witness :
    (cfpreferences_write_string [] "d" "k" [0x61] true).ok = true ∧
      cfpreferences_write_string [] "d" "k" [0xFF] true
        = { state := [], flushed := false, ok := false } :=
  ⟨((write_flush_and_failure_characterization [] "d" "k" 0 0 0 [0x61] true).2.2.2.2.2.1
      (by decide)).2.2,
    (write_flush_and_failure_characterization [] "d" "k" 0 0 0 [0xFF] true).2.2.2.2.2.2
      (by decide)⟩
